import Mathlib

set_option maxRecDepth 20000

/-- One raw record as returned inside the extraction payload: a mapping from
field names to values, modelled as an association list of strings. -/
abbrev RawRecord : Type := List (String × String)

/-- Python dict.get with default [] over the payload mapping. -/
def dictGet (d : List (String × List RawRecord)) (k : String) : List RawRecord :=
  match d.find? (fun kv => kv.1 == k) with
  | some kv => kv.2
  | none => []

/-- Boolean: p is a prefix of the second list. -/
def listIsPrefixOf : List Char → List Char → Bool
  | [], _ => true
  | _ :: _, [] => false
  | a :: as, b :: bs => a == b && listIsPrefixOf as bs

/-- Boolean: pat occurs as a contiguous sublist. -/
def listHasSub (pat : List Char) : List Char → Bool
  | [] => pat.isEmpty
  | b :: rest => listIsPrefixOf pat (b :: rest) || listHasSub pat rest

/-- Substring test on strings, Python "pat in s". -/
def containsSub (s pat : String) : Bool := listHasSub pat.data s.data

/-- startsWith test on strings. -/
def strStartsWith (s p : String) : Bool := listIsPrefixOf p.data s.data

/-- Outcome of one call to a remote service: a returned value or a raised
exception carrying its description str(e). -/
inductive RemoteOutcome (α : Type) where
  | ok (val : α)
  | raise (msg : String)
deriving DecidableEq

/-- Shape of the Firecrawl extraction response as accessed by app.py
(attributes success, data, status, expiresAt). -/
structure FirecrawlResponse where
  success : Bool
  data : List (String × List RawRecord)
  status : String
  expiresAt : String
deriving DecidableEq

/-- Behaviour of the two remote services during one orchestrator invocation;
each is called at most once per invocation. -/
structure RemoteEnv where
  extractResult : RemoteOutcome FirecrawlResponse
  agentResult : RemoteOutcome String

/-- What one orchestrator invocation produced: the returned string, the
prompts sent to agent.run (in order), and the URLs built for extraction. -/
structure PipelineResult where
  output : String
  agentPrompts : List String
  extractUrls : List String
deriving DecidableEq

/-- Python str.lower, character by character (the ASCII behaviour). -/
def pyLower (s : String) : String := ⟨s.data.map Char.toLower⟩

/-- Python replace(" ","-"), character by character. -/
def pyReplaceSpaceDash (s : String) : String :=
  ⟨s.data.map (fun c => if c = ' ' then '-' else c)⟩

/-- Python lower().replace(" ","-") applied to a free-text field. -/
def hyphenateLower (s : String) : String := pyReplaceSpaceDash (pyLower s)

/-- Python ", ".join, which is also the separator the repr of a list uses. -/
def joinComma : List String → String
  | [] => ""
  | [s] => s
  | s :: rest => s ++ ", " ++ joinComma rest

/-- Python repr of one key/value entry of a record dict. -/
def pyReprPair (kv : String × String) : String :=
  "\x27" ++ kv.1 ++ "\x27: \x27" ++ kv.2 ++ "\x27"

/-- Python repr of one record dict, as an f-string renders it. -/
def pyReprRecord (r : RawRecord) : String :=
  "\x7b" ++ joinComma (List.map pyReprPair r) ++ "\x7d"

/-- Python repr of the whole record list, as an f-string renders it. -/
def pyReprRecords (rs : List RawRecord) : String :=
  "[" ++ joinComma (List.map pyReprRecord rs) ++ "]"

/-- Fallback returned by find_jobs when the record sequence is empty. -/
def noJobsMsg : String :=
  "No job listing found matching your criteria. Try adjusting your search parameters or try different job sites."

/-- Error string returned by find_jobs from its except-branch. -/
def findJobsErrMsg (e : String) : String :=
  "An error occured while searching for jobs: " ++
    (e ++
      "\n\nPlease try again with different search parameters or check if the job sites are supported by Firecrawl.")

/-- Error string returned by get_industry_trends from its except-branch. -/
def trendsErrMsg (e : String) : String :=
  "An error occurerd while fetching industry trends: " ++
    (e ++
      "\n\nPlease try again with a different industry category or check if the sites are supported by Firecrawl. ")

/-- Fallback of get_industry_trends when the success flag is false. -/
def noTrendsFailMsg (cat : String) : String :=
  "No industry trend data available for " ++ (cat ++ ".Try different industry category.")

/-- Fallback of get_industry_trends when extraction succeeded but the
industry_trends list is missing or empty. -/
def noTrendsEmptyMsg (cat : String) : String :=
  "No industry trends data available for " ++ (cat ++ ".Try a different industry category.")

/-- The three job-search URLs built by find_jobs. -/
def find_jobs_urls (job_title location : String) : List String :=
  let formatted_job_title := hyphenateLower job_title
  let formatted_location := hyphenateLower location
  [ "https://www.naukri.com/" ++ (formatted_job_title ++ ("-jobs-in-" ++ formatted_location)),
    "https://www.indeed.com/jobs?q=" ++ (formatted_job_title ++ ("&l=" ++ formatted_location)),
    "https://www.monster.com/jobs/search/?q=" ++ (formatted_job_title ++ ("&where=" ++ formatted_location)) ]

/-- The two industry-trend URLs built by get_industry_trends. -/
def industry_trend_urls (job_category : String) : List String :=
  [ "https://www.payscale.com/research/US/Job=" ++
      (pyReplaceSpaceDash job_category ++ "/Salary"),
    "https://www.glassdoor.com/Salaries/" ++
      (hyphenateLower job_category ++
        ("-salary-SRCH_KO0," ++ (toString job_category.length ++ ".htm"))) ]

/-- The anti-fabrication instruction contained in the find_jobs prompt. -/
def doNotInstr : String := "DO NOT CREATE new Job Listings"

/-- The synthesis prompt of find_jobs, the f-string at app.py lines 151-192
(identically at job-hunt.py lines 135-176), with the interpolated values as
arguments. -/
def findJobsSynthPrompt (job_title location : String) (experience_years : Nat)
    (skills_string jobs_repr : String) : String :=
  "As a career expert, anaylze these job opportunities:
                
                Job Found in json format:
                " ++
  (jobs_repr ++
  ("

                **IMPORTANT INSTRUCTIONS:**
                1.ONLY analyze jobs from the above JSON data that match the user\x27s requirements:
                    -Job Title: Related to " ++
  (job_title ++
  ("
                    -Location/Region: Near " ++
  (location ++
  ("
                    -Experience: Around " ++
  (toString experience_years ++
  (" years
                    -skills: " ++
  (skills_string ++
  "
                    -Job type: Full-time, Part-time, Contract, Temperory, Internship
                2.DO NOT CREATE new Job Listings
                3.From the matching jobs, select 5-6 jobs that best match the user\x27s skills and experience

                Please provide your analysis in this format:
                
                💼 SELECTED JOB OPPORTUNITIES
                • List only 5-6 best matching jobs
                • For each job include:
                  - Job Title and Role
                  - Region/Location
                  - Experience Required
                  - Pros and Cons
                  - Job Link
                🔍 SKILLS MATCH ANALYSIS
                • Compare the selected jobs based on:
                  - Skills match with user\x27s profile
                  - Experience requirements
                  - Growth potential

                💡 RECOMMENDATIONS
                • Top 3 jobs from the selection with reasoning
                • Career growth potential
                • Points to consider before applying

                📝 APPLICATION TIPS
                • Job-specific application strategies
                • Resume customization tips for these roles

                Format your response in a clear, structured way using the above sections.
                ")))))))))

/-- The synthesis prompt of get_industry_trends, the f-string at app.py lines
244-270 (identically at job-hunt.py lines 227-253). -/
def trendsSynthPrompt (job_category industries_repr : String) : String :=
  "As a career expert, analyze these industry trends for " ++
  (job_category ++
  (":

                    " ++
  (industries_repr ++
  "

                    Please provide:
                    1. A bullet-point summary of the salary and demand trends
                    2. Identify the top skills in demand for this industry
                    3. Career growth opportunities:
                       - Roles with highest growth potential
                       - Emerging specializations
                       - Skills with increasing demand
                    4. Specific advice for job seekers based on these trends

                    Format the response as follows:
                    
                    📊 INDUSTRY TRENDS SUMMARY
                    • [Bullet points for salary and demand trends]

                    🔥 TOP SKILLS IN DEMAND
                    • [Bullet points for most sought-after skills]

                    📈 CAREER GROWTH OPPORTUNITIES
                    • [Bullet points with growth insights]

                    🎯 RECOMMENDATIONS FOR JOB SEEKERS
                    • [Bullet points with specific advice]
                    ")))

namespace App

/-- Normalization step of app.py find_jobs, lines 136-142: the success flag
gates access to the payload, the job_postings key defaults to the empty list. -/
def normalizedJobs (raw_response : FirecrawlResponse) : List RawRecord :=
  if raw_response.success then dictGet raw_response.data "job_postings" else []

/-- app.py lines 83-197: the find_jobs pipeline, with the two remote calls
replaced by the behaviours recorded in env. -/
def find_jobs (env : RemoteEnv) (job_title location : String)
    (experience_years : Nat) (skills : List String) : PipelineResult :=
  let skills_string := joinComma skills
  let urls := find_jobs_urls job_title location
  match env.extractResult with
  | RemoteOutcome.raise e =>
      { output := findJobsErrMsg e, agentPrompts := [], extractUrls := urls }
  | RemoteOutcome.ok raw_response =>
      let jobs := normalizedJobs raw_response
      if jobs.isEmpty then
        { output := noJobsMsg, agentPrompts := [], extractUrls := urls }
      else
        let prompt := findJobsSynthPrompt job_title location experience_years
          skills_string (pyReprRecords jobs)
        match env.agentResult with
        | RemoteOutcome.raise e =>
            { output := findJobsErrMsg e, agentPrompts := [prompt], extractUrls := urls }
        | RemoteOutcome.ok content =>
            { output := content, agentPrompts := [prompt], extractUrls := urls }

/-- app.py lines 198-276: the get_industry_trends pipeline. -/
def get_industry_trends (env : RemoteEnv) (job_category : String) : PipelineResult :=
  let urls := industry_trend_urls job_category
  match env.extractResult with
  | RemoteOutcome.raise e =>
      { output := trendsErrMsg e, agentPrompts := [], extractUrls := urls }
  | RemoteOutcome.ok raw_response =>
      if raw_response.success then
        let industries := dictGet raw_response.data "industry_trends"
        if industries.isEmpty then
          { output := noTrendsEmptyMsg job_category, agentPrompts := [], extractUrls := urls }
        else
          let prompt := trendsSynthPrompt job_category (pyReprRecords industries)
          match env.agentResult with
          | RemoteOutcome.raise e =>
              { output := trendsErrMsg e, agentPrompts := [prompt], extractUrls := urls }
          | RemoteOutcome.ok content =>
              { output := content, agentPrompts := [prompt], extractUrls := urls }
      else
        { output := noTrendsFailMsg job_category, agentPrompts := [], extractUrls := urls }

end App

namespace JobHunt

/-- What the job-hunt.py firecrawl.extract call may return: a dict carrying a
success flag and payload, or a non-dict value (line 122 checks isinstance). -/
inductive ExtractValue where
  | dictResp (success : Bool) (data : List (String × List RawRecord))
  | nonDict
deriving DecidableEq

/-- Behaviour of the two remote services for one job-hunt.py invocation. -/
structure JHEnv where
  extractResult : RemoteOutcome ExtractValue
  agentResult : RemoteOutcome String

/-- Normalization step of job-hunt.py find_jobs, lines 122-126: a dict with a
truthy success flag yields the job_postings key, everything else is empty. -/
def normalizedJobs : ExtractValue → List RawRecord
  | ExtractValue.dictResp true data => dictGet data "job_postings"
  | _ => []

/-- job-hunt.py lines 67-181: the find_jobs pipeline. -/
def find_jobs (env : JHEnv) (job_title location : String)
    (experience_years : Nat) (skills : List String) : PipelineResult :=
  let skills_string := joinComma skills
  let urls := find_jobs_urls job_title location
  match env.extractResult with
  | RemoteOutcome.raise e =>
      { output := findJobsErrMsg e, agentPrompts := [], extractUrls := urls }
  | RemoteOutcome.ok raw_response =>
      let jobs := normalizedJobs raw_response
      if jobs.isEmpty then
        { output := noJobsMsg, agentPrompts := [], extractUrls := urls }
      else
        let prompt := findJobsSynthPrompt job_title location experience_years
          skills_string (pyReprRecords jobs)
        match env.agentResult with
        | RemoteOutcome.raise e =>
            { output := findJobsErrMsg e, agentPrompts := [prompt], extractUrls := urls }
        | RemoteOutcome.ok content =>
            { output := content, agentPrompts := [prompt], extractUrls := urls }

/-- job-hunt.py lines 182-259: the get_industry_trends pipeline. -/
def get_industry_trends (env : JHEnv) (job_category : String) : PipelineResult :=
  let urls := industry_trend_urls job_category
  match env.extractResult with
  | RemoteOutcome.raise e =>
      { output := trendsErrMsg e, agentPrompts := [], extractUrls := urls }
  | RemoteOutcome.ok raw_response =>
      match raw_response with
      | ExtractValue.dictResp true data =>
          let industries := dictGet data "industry_trends"
          if industries.isEmpty then
            { output := noTrendsEmptyMsg job_category, agentPrompts := [], extractUrls := urls }
          else
            let prompt := trendsSynthPrompt job_category (pyReprRecords industries)
            match env.agentResult with
            | RemoteOutcome.raise e =>
                { output := trendsErrMsg e, agentPrompts := [prompt], extractUrls := urls }
            | RemoteOutcome.ok content =>
                { output := content, agentPrompts := [prompt], extractUrls := urls }
      | _ =>
          { output := noTrendsFailMsg job_category, agentPrompts := [], extractUrls := urls }

/-- The error-display test of job-hunt.py main, lines 449 and 462. -/
def errorDisplayTriggered (s : String) : Bool := containsSub s "An error occurred"

end JobHunt

/-- A fully populated job record, as the extraction payload would carry it. -/
def recJob : RawRecord :=
  [("region", "NY"), ("role", "Dev"), ("job_title", "Data Scientist"),
   ("experience", "3"), ("job_link", "L")]

/-- A partial job record: every field but job_title is missing. -/
def recPartial : RawRecord := [("job_title", "x")]

/-- A record whose key does not belong to the JobPosting schema at all. -/
def recBogus : RawRecord := [("bogus", "x")]

/-- A fully populated industry-trend record. -/
def recTrend : RawRecord :=
  [("industry", "Tech"), ("avg_salary", "100"), ("growth_rate", "5"),
   ("demand_level", "High"), ("top_skills", "Python")]

/-- Successful extraction response carrying one job posting. -/
def respJobsOk : FirecrawlResponse :=
  { success := true, data := [("job_postings", [recJob])],
    status := "completed", expiresAt := "t" }

/-- Successful extraction response carrying one industry trend. -/
def respTrendsOk : FirecrawlResponse :=
  { success := true, data := [("industry_trends", [recTrend])],
    status := "completed", expiresAt := "t" }

/-- Successful extraction response whose payload lacks the expected keys. -/
def respEmpty : FirecrawlResponse :=
  { success := true, data := [], status := "completed", expiresAt := "t" }

/-- Failure-tagged extraction response with a non-empty payload. -/
def respFail : FirecrawlResponse :=
  { success := false, data := [("job_postings", [recJob]), ("industry_trends", [recTrend])],
    status := "failed", expiresAt := "t" }

/-- Successful extraction response carrying one partial job record. -/
def respPartial : FirecrawlResponse :=
  { success := true, data := [("job_postings", [recPartial])],
    status := "completed", expiresAt := "t" }

/-- Successful extraction response carrying a record outside the schema. -/
def respBogus : FirecrawlResponse :=
  { success := true, data := [("job_postings", [recBogus])],
    status := "completed", expiresAt := "t" }

/-- Remote behaviour: extraction and synthesis both succeed, one job. -/
def envJobsOk : RemoteEnv :=
  { extractResult := RemoteOutcome.ok respJobsOk, agentResult := RemoteOutcome.ok "REPORT" }

/-- Remote behaviour: extraction and synthesis both succeed, one trend. -/
def envTrendsOk : RemoteEnv :=
  { extractResult := RemoteOutcome.ok respTrendsOk, agentResult := RemoteOutcome.ok "REPORT" }

/-- Remote behaviour: extraction succeeds with an empty payload. -/
def envEmptyOk : RemoteEnv :=
  { extractResult := RemoteOutcome.ok respEmpty, agentResult := RemoteOutcome.ok "REPORT" }

/-- Remote behaviour: extraction returns a failure-tagged response. -/
def envFail : RemoteEnv :=
  { extractResult := RemoteOutcome.ok respFail, agentResult := RemoteOutcome.ok "REPORT" }

/-- Remote behaviour: the extraction call raises a transport exception. -/
def envRaise : RemoteEnv :=
  { extractResult := RemoteOutcome.raise "Connection timed out",
    agentResult := RemoteOutcome.ok "REPORT" }

/-- Remote behaviour: extraction succeeds, the synthesis call raises. -/
def envAgentRaise : RemoteEnv :=
  { extractResult := RemoteOutcome.ok respJobsOk, agentResult := RemoteOutcome.raise "rate limit" }

/-- Remote behaviour: trends extraction succeeds, synthesis raises. -/
def envTrendsAgentRaise : RemoteEnv :=
  { extractResult := RemoteOutcome.ok respTrendsOk, agentResult := RemoteOutcome.raise "rate limit" }

/-- Remote behaviour: extraction succeeds with one partial record. -/
def envPartial : RemoteEnv :=
  { extractResult := RemoteOutcome.ok respPartial, agentResult := RemoteOutcome.ok "REPORT" }

/-- Remote behaviour: extraction succeeds with one out-of-schema record. -/
def envBogus : RemoteEnv :=
  { extractResult := RemoteOutcome.ok respBogus, agentResult := RemoteOutcome.ok "REPORT" }

/-- job-hunt.py behaviour: the extraction call raises. -/
def jhEnvRaise : JobHunt.JHEnv :=
  { extractResult := RemoteOutcome.raise "Connection timed out",
    agentResult := RemoteOutcome.ok "REPORT" }

/-- job-hunt.py behaviour: the extraction call raises an exception whose own
description contains the correctly spelled detection phrase. -/
def jhEnvRaiseTricky : JobHunt.JHEnv :=
  { extractResult := RemoteOutcome.raise "An error occurred",
    agentResult := RemoteOutcome.ok "REPORT" }

/-- The JobPosting schema shape: every key of the mapping is one of the five
NestedModel1 fields of app.py lines 20-26. -/
def jobPostingShaped (r : RawRecord) : Bool :=
  r.all (fun kv => kv.1 == "region" || kv.1 == "role" || kv.1 == "job_title" ||
    kv.1 == "experience" || kv.1 == "job_link")

/-- The IndustryTrend schema shape: every key of the mapping is one of the
five IndustryTrend fields of app.py lines 32-38. -/
def industryTrendShaped (r : RawRecord) : Bool :=
  r.all (fun kv => kv.1 == "industry" || kv.1 == "avg_salary" ||
    kv.1 == "growth_rate" || kv.1 == "demand_level" || kv.1 == "top_skills")

/-- Whether a record carries all five JobPosting fields (with whatever
values). -/
def hasAllJobFields (r : RawRecord) : Bool :=
  ["region", "role", "job_title", "experience", "job_link"].all
    (fun k => r.any (fun kv => kv.1 == k))

/-- Boolean suffix test on character lists. -/
def listIsSuffixOfB (u x : List Char) : Bool := listIsPrefixOf u.reverse x.reverse

/-- Successful extraction response carrying both payload keys. -/
def respBoth : FirecrawlResponse :=
  { success := true,
    data := [("job_postings", [recJob]), ("industry_trends", [recTrend])],
    status := "completed", expiresAt := "t" }

/-- Remote behaviour: extraction succeeds with both payload keys. -/
def envBoth : RemoteEnv :=
  { extractResult := RemoteOutcome.ok respBoth, agentResult := RemoteOutcome.ok "REPORT" }

/-- job-hunt.py payload carrying both keys. -/
def jhDataBoth : List (String × List RawRecord) :=
  [("job_postings", [recJob]), ("industry_trends", [recTrend])]

/-- job-hunt.py behaviour: extraction succeeds, the synthesis call raises. -/
def jhEnvAgentRaise : JobHunt.JHEnv :=
  { extractResult := RemoteOutcome.ok (JobHunt.ExtractValue.dictResp true jhDataBoth),
    agentResult := RemoteOutcome.raise "rate limit" }

theorem listIsPrefixOf_self_append (p t : List Char) :
    listIsPrefixOf p (p ++ t) = true := by
  induction p with
  | nil => simp [listIsPrefixOf]
  | cons a as ih => simp [listIsPrefixOf, ih]

theorem listIsPrefixOf_refl (p : List Char) : listIsPrefixOf p p = true := by
  have h := listIsPrefixOf_self_append p []
  simpa using h

theorem listIsPrefixOf_append_left (p x y : List Char) (h : listIsPrefixOf p x = true) :
    listIsPrefixOf p (x ++ y) = true := by
  induction p generalizing x with
  | nil => simp [listIsPrefixOf]
  | cons a as ih =>
    cases x with
    | nil => simp [listIsPrefixOf] at h
    | cons b bs =>
      simp [listIsPrefixOf, Bool.and_eq_true, beq_iff_eq] at h ⊢
      exact ⟨h.1, ih bs h.2⟩

theorem listIsPrefixOf_exists (p s : List Char) (h : listIsPrefixOf p s = true) :
    ∃ t, s = p ++ t := by
  induction p generalizing s with
  | nil => exact ⟨s, rfl⟩
  | cons a as ih =>
    cases s with
    | nil => simp [listIsPrefixOf] at h
    | cons b bs =>
      simp [listIsPrefixOf, Bool.and_eq_true, beq_iff_eq] at h
      obtain ⟨t, ht⟩ := ih bs h.2
      exact ⟨t, by simp [h.1, ht]⟩

theorem listHasSub_of_starts (p s : List Char) (h : listIsPrefixOf p s = true) :
    listHasSub p s = true := by
  cases s with
  | nil =>
    cases p with
    | nil => simp [listHasSub]
    | cons a as => simp [listIsPrefixOf] at h
  | cons b rest => simp [listHasSub, h]

theorem listHasSub_nil_pat (s : List Char) : listHasSub [] s = true := by
  cases s <;> simp [listHasSub, listIsPrefixOf]

theorem listHasSub_append_right (p x y : List Char) (h : listHasSub p y = true) :
    listHasSub p (x ++ y) = true := by
  induction x with
  | nil => simpa using h
  | cons a as ih =>
    rw [List.cons_append]
    simp [listHasSub, Bool.or_eq_true]
    exact Or.inr ih

theorem listHasSub_append_left (p x y : List Char) (h : listHasSub p x = true) :
    listHasSub p (x ++ y) = true := by
  induction x with
  | nil =>
    simp [listHasSub, List.isEmpty_iff] at h
    subst h
    exact listHasSub_nil_pat y
  | cons a as ih =>
    rw [List.cons_append]
    simp [listHasSub, Bool.or_eq_true] at h ⊢
    cases h with
    | inl hp => exact Or.inl (listIsPrefixOf_append_left p (a :: as) y hp)
    | inr hr => exact Or.inr (ih hr)

theorem listHasSub_middle (x p y : List Char) : listHasSub p (x ++ p ++ y) = true := by
  rw [List.append_assoc]
  exact listHasSub_append_right p x (p ++ y)
    (listHasSub_of_starts _ _ (listIsPrefixOf_self_append p y))

theorem listHasSub_exists (p s : List Char) (h : listHasSub p s = true) :
    ∃ x y, s = x ++ p ++ y := by
  induction s with
  | nil =>
    simp [listHasSub, List.isEmpty_iff] at h
    exact ⟨[], [], by simp [h]⟩
  | cons b rest ih =>
    simp [listHasSub, Bool.or_eq_true] at h
    cases h with
    | inl hp =>
      obtain ⟨t, ht⟩ := listIsPrefixOf_exists p _ hp
      exact ⟨[], t, by simp [ht]⟩
    | inr hr =>
      obtain ⟨x, y, hxy⟩ := ih hr
      exact ⟨b :: x, y, by simp [hxy]⟩

theorem listHasSub_trans (p m s : List Char) (h1 : listHasSub m s = true)
    (h2 : listHasSub p m = true) : listHasSub p s = true := by
  obtain ⟨x, y, hxy⟩ := listHasSub_exists m s h1
  obtain ⟨u, v, huv⟩ := listHasSub_exists p m h2
  subst hxy
  subst huv
  have he : x ++ (u ++ p ++ v) ++ y = (x ++ u) ++ p ++ (v ++ y) := by
    simp [List.append_assoc]
  rw [he]
  exact listHasSub_middle _ _ _

theorem listIsPrefixOf_append_cases (p x y : List Char)
    (h : listIsPrefixOf p (x ++ y) = true) :
    listIsPrefixOf p x = true ∨ ∃ v, p = x ++ v ∧ listIsPrefixOf v y = true := by
  induction x generalizing p with
  | nil => exact Or.inr ⟨p, rfl, by simpa using h⟩
  | cons a as ih =>
    cases p with
    | nil => exact Or.inl (by simp [listIsPrefixOf])
    | cons c cs =>
      rw [List.cons_append] at h
      simp [listIsPrefixOf, Bool.and_eq_true, beq_iff_eq] at h
      cases ih cs h.2 with
      | inl hl => exact Or.inl (by simp [listIsPrefixOf, h.1, hl])
      | inr hr =>
        obtain ⟨v, hv, hvy⟩ := hr
        exact Or.inr ⟨v, by simp [h.1, hv], hvy⟩

theorem listHasSub_append_cases (p x y : List Char) (h : listHasSub p (x ++ y) = true) :
    listHasSub p x = true ∨ listHasSub p y = true ∨
      ∃ u v, p = u ++ v ∧ u ≠ [] ∧ v ≠ [] ∧ (∃ t, x = t ++ u) ∧
        listIsPrefixOf v y = true := by
  induction x with
  | nil => exact Or.inr (Or.inl (by simpa using h))
  | cons a as ih =>
    rw [List.cons_append] at h
    simp only [listHasSub, Bool.or_eq_true] at h
    cases h with
    | inl hp =>
      have hcases := listIsPrefixOf_append_cases p (a :: as) y (by simpa using hp)
      cases hcases with
      | inl h3 => exact Or.inl (listHasSub_of_starts _ _ h3)
      | inr h3 =>
        obtain ⟨v, hv, hvy⟩ := h3
        cases v with
        | nil =>
          have hp2 : p = a :: as := by simpa using hv
          exact Or.inl (hp2 ▸ listHasSub_of_starts _ _ (listIsPrefixOf_refl _))
        | cons c cs =>
          exact Or.inr (Or.inr ⟨a :: as, c :: cs, hv, by simp, by simp, ⟨[], by simp⟩, hvy⟩)
    | inr hs =>
      cases ih hs with
      | inl h3 =>
        refine Or.inl ?_
        simp only [listHasSub, Bool.or_eq_true]
        exact Or.inr h3
      | inr h3 =>
        cases h3 with
        | inl h4 => exact Or.inr (Or.inl h4)
        | inr h4 =>
          obtain ⟨u, v, hu, hne, hvne, ⟨t, ht⟩, hvy⟩ := h4
          exact Or.inr (Or.inr ⟨u, v, hu, hne, hvne, ⟨a :: t, by simp [ht]⟩, hvy⟩)

theorem containsSub_append_left (x y p : String) (h : containsSub x p = true) :
    containsSub (x ++ y) p = true := by
  simp only [containsSub, String.data_append]
  exact listHasSub_append_left _ _ _ h

theorem containsSub_append_right (x y p : String) (h : containsSub y p = true) :
    containsSub (x ++ y) p = true := by
  simp only [containsSub, String.data_append]
  exact listHasSub_append_right _ _ _ h

theorem containsSub_self (p : String) : containsSub p p = true :=
  listHasSub_of_starts _ _ (listIsPrefixOf_refl _)

theorem containsSub_trans (s m p : String) (h1 : containsSub s m = true)
    (h2 : containsSub m p = true) : containsSub s p = true :=
  listHasSub_trans _ _ _ h1 h2

theorem strStartsWith_append (x y p : String) (h : strStartsWith x p = true) :
    strStartsWith (x ++ y) p = true := by
  simp only [strStartsWith, String.data_append]
  exact listIsPrefixOf_append_left _ _ _ h

theorem joinComma_contains (l : List String) (s : String) (h : s ∈ l) :
    containsSub (joinComma l) s = true := by
  induction l with
  | nil => cases h
  | cons a rest ih =>
    cases rest with
    | nil =>
      have hs : s = a := by simpa using h
      subst hs
      simp only [joinComma]
      exact containsSub_self s
    | cons b rest2 =>
      simp only [joinComma]
      rcases List.mem_cons.mp h with rfl | h2
      · exact containsSub_append_left _ _ _
          (containsSub_append_left _ _ _ (containsSub_self s))
      · exact containsSub_append_right _ _ _ (ih h2)

theorem pyReprRecords_contains (rs : List RawRecord) (r : RawRecord) (h : r ∈ rs) :
    containsSub (pyReprRecords rs) (pyReprRecord r) = true := by
  unfold pyReprRecords
  have hm : pyReprRecord r ∈ List.map pyReprRecord rs := List.mem_map_of_mem _ h
  exact containsSub_append_left _ _ _
    (containsSub_append_right _ _ _ (joinComma_contains _ _ hm))

theorem findPrompt_contains_repr (jt loc : String) (ey : Nat) (sk jr : String) :
    containsSub (findJobsSynthPrompt jt loc ey sk jr) jr = true := by
  unfold findJobsSynthPrompt
  exact containsSub_append_right _ _ _ (containsSub_append_left _ _ _ (containsSub_self jr))

theorem findPrompt_contains_doNot (jt loc : String) (ey : Nat) (sk jr : String) :
    containsSub (findJobsSynthPrompt jt loc ey sk jr) doNotInstr = true := by
  unfold findJobsSynthPrompt
  apply containsSub_append_right
  apply containsSub_append_right
  apply containsSub_append_right
  apply containsSub_append_right
  apply containsSub_append_right
  apply containsSub_append_right
  apply containsSub_append_right
  apply containsSub_append_right
  apply containsSub_append_right
  apply containsSub_append_right
  decide

theorem findPrompt_contains_record (jt loc : String) (ey : Nat) (sk : String)
    (rs : List RawRecord) (r : RawRecord) (h : r ∈ rs) :
    containsSub (findJobsSynthPrompt jt loc ey sk (pyReprRecords rs))
      (pyReprRecord r) = true :=
  containsSub_trans _ _ _ (findPrompt_contains_repr jt loc ey sk (pyReprRecords rs))
    (pyReprRecords_contains rs r h)

theorem trendsPrompt_contains_repr (cat ir : String) :
    containsSub (trendsSynthPrompt cat ir) ir = true := by
  unfold trendsSynthPrompt
  apply containsSub_append_right
  apply containsSub_append_right
  apply containsSub_append_right
  exact containsSub_append_left _ _ _ (containsSub_self ir)

theorem trendsPrompt_contains_record (cat : String) (rs : List RawRecord)
    (r : RawRecord) (h : r ∈ rs) :
    containsSub (trendsSynthPrompt cat (pyReprRecords rs)) (pyReprRecord r) = true :=
  containsSub_trans _ _ _ (trendsPrompt_contains_repr cat (pyReprRecords rs))
    (pyReprRecords_contains rs r h)

theorem app_find_jobs_eq_raise (env : RemoteEnv) (jt loc : String) (ey : Nat)
    (sk : List String) (e : String) (h : env.extractResult = RemoteOutcome.raise e) :
    App.find_jobs env jt loc ey sk =
      { output := findJobsErrMsg e, agentPrompts := [],
        extractUrls := find_jobs_urls jt loc } := by
  unfold App.find_jobs
  rw [h]

theorem app_find_jobs_eq_empty (env : RemoteEnv) (jt loc : String) (ey : Nat)
    (sk : List String) (resp : FirecrawlResponse)
    (hok : env.extractResult = RemoteOutcome.ok resp)
    (he : App.normalizedJobs resp = []) :
    App.find_jobs env jt loc ey sk =
      { output := noJobsMsg, agentPrompts := [], extractUrls := find_jobs_urls jt loc } := by
  unfold App.find_jobs
  rw [hok]
  simp [he]

theorem app_find_jobs_eq_ok (env : RemoteEnv) (jt loc : String) (ey : Nat)
    (sk : List String) (resp : FirecrawlResponse) (c : String)
    (hok : env.extractResult = RemoteOutcome.ok resp)
    (hne : App.normalizedJobs resp ≠ [])
    (hag : env.agentResult = RemoteOutcome.ok c) :
    App.find_jobs env jt loc ey sk =
      { output := c,
        agentPrompts := [findJobsSynthPrompt jt loc ey (joinComma sk)
          (pyReprRecords (App.normalizedJobs resp))],
        extractUrls := find_jobs_urls jt loc } := by
  unfold App.find_jobs
  rw [hok, hag]
  simp [List.isEmpty_iff, hne]

theorem app_find_jobs_eq_agent_raise (env : RemoteEnv) (jt loc : String) (ey : Nat)
    (sk : List String) (resp : FirecrawlResponse) (e : String)
    (hok : env.extractResult = RemoteOutcome.ok resp)
    (hne : App.normalizedJobs resp ≠ [])
    (hag : env.agentResult = RemoteOutcome.raise e) :
    App.find_jobs env jt loc ey sk =
      { output := findJobsErrMsg e,
        agentPrompts := [findJobsSynthPrompt jt loc ey (joinComma sk)
          (pyReprRecords (App.normalizedJobs resp))],
        extractUrls := find_jobs_urls jt loc } := by
  unfold App.find_jobs
  rw [hok, hag]
  simp [List.isEmpty_iff, hne]

theorem app_trends_eq_raise (env : RemoteEnv) (cat e : String)
    (h : env.extractResult = RemoteOutcome.raise e) :
    App.get_industry_trends env cat =
      { output := trendsErrMsg e, agentPrompts := [],
        extractUrls := industry_trend_urls cat } := by
  unfold App.get_industry_trends
  rw [h]

theorem app_trends_eq_fail (env : RemoteEnv) (cat : String) (resp : FirecrawlResponse)
    (hok : env.extractResult = RemoteOutcome.ok resp)
    (hf : resp.success = false) :
    App.get_industry_trends env cat =
      { output := noTrendsFailMsg cat, agentPrompts := [],
        extractUrls := industry_trend_urls cat } := by
  unfold App.get_industry_trends
  rw [hok]
  simp [hf]

theorem app_trends_eq_empty (env : RemoteEnv) (cat : String) (resp : FirecrawlResponse)
    (hok : env.extractResult = RemoteOutcome.ok resp)
    (hs : resp.success = true)
    (he : dictGet resp.data "industry_trends" = []) :
    App.get_industry_trends env cat =
      { output := noTrendsEmptyMsg cat, agentPrompts := [],
        extractUrls := industry_trend_urls cat } := by
  unfold App.get_industry_trends
  rw [hok]
  simp [hs, he]

theorem app_trends_eq_ok (env : RemoteEnv) (cat : String) (resp : FirecrawlResponse)
    (c : String)
    (hok : env.extractResult = RemoteOutcome.ok resp)
    (hs : resp.success = true)
    (hne : dictGet resp.data "industry_trends" ≠ [])
    (hag : env.agentResult = RemoteOutcome.ok c) :
    App.get_industry_trends env cat =
      { output := c,
        agentPrompts := [trendsSynthPrompt cat
          (pyReprRecords (dictGet resp.data "industry_trends"))],
        extractUrls := industry_trend_urls cat } := by
  unfold App.get_industry_trends
  rw [hok, hag]
  simp [hs, List.isEmpty_iff, hne]

theorem app_trends_eq_agent_raise (env : RemoteEnv) (cat : String)
    (resp : FirecrawlResponse) (e : String)
    (hok : env.extractResult = RemoteOutcome.ok resp)
    (hs : resp.success = true)
    (hne : dictGet resp.data "industry_trends" ≠ [])
    (hag : env.agentResult = RemoteOutcome.raise e) :
    App.get_industry_trends env cat =
      { output := trendsErrMsg e,
        agentPrompts := [trendsSynthPrompt cat
          (pyReprRecords (dictGet resp.data "industry_trends"))],
        extractUrls := industry_trend_urls cat } := by
  unfold App.get_industry_trends
  rw [hok, hag]
  simp [hs, List.isEmpty_iff, hne]

theorem jh_find_jobs_eq_raise (env : JobHunt.JHEnv) (jt loc : String) (ey : Nat)
    (sk : List String) (e : String) (h : env.extractResult = RemoteOutcome.raise e) :
    JobHunt.find_jobs env jt loc ey sk =
      { output := findJobsErrMsg e, agentPrompts := [],
        extractUrls := find_jobs_urls jt loc } := by
  unfold JobHunt.find_jobs
  rw [h]

theorem jh_find_jobs_eq_agent_raise (env : JobHunt.JHEnv) (jt loc : String) (ey : Nat)
    (sk : List String) (v : JobHunt.ExtractValue) (e : String)
    (hok : env.extractResult = RemoteOutcome.ok v)
    (hne : JobHunt.normalizedJobs v ≠ [])
    (hag : env.agentResult = RemoteOutcome.raise e) :
    JobHunt.find_jobs env jt loc ey sk =
      { output := findJobsErrMsg e,
        agentPrompts := [findJobsSynthPrompt jt loc ey (joinComma sk)
          (pyReprRecords (JobHunt.normalizedJobs v))],
        extractUrls := find_jobs_urls jt loc } := by
  unfold JobHunt.find_jobs
  rw [hok, hag]
  simp [List.isEmpty_iff, hne]

theorem jh_trends_eq_raise (env : JobHunt.JHEnv) (cat e : String)
    (h : env.extractResult = RemoteOutcome.raise e) :
    JobHunt.get_industry_trends env cat =
      { output := trendsErrMsg e, agentPrompts := [],
        extractUrls := industry_trend_urls cat } := by
  unfold JobHunt.get_industry_trends
  rw [h]

theorem jh_trends_eq_agent_raise (env : JobHunt.JHEnv) (cat : String)
    (d : List (String × List RawRecord)) (e : String)
    (hok : env.extractResult = RemoteOutcome.ok (JobHunt.ExtractValue.dictResp true d))
    (hne : dictGet d "industry_trends" ≠ [])
    (hag : env.agentResult = RemoteOutcome.raise e) :
    JobHunt.get_industry_trends env cat =
      { output := trendsErrMsg e,
        agentPrompts := [trendsSynthPrompt cat
          (pyReprRecords (dictGet d "industry_trends"))],
        extractUrls := industry_trend_urls cat } := by
  unfold JobHunt.get_industry_trends
  rw [hok, hag]
  simp [List.isEmpty_iff, hne]

/-- C1 (amended): for every invocation of find_jobs and of get_industry_trends
in which the normalized record sequence is non-empty, agent.run is invoked
exactly once and its outbound prompt contains every record of the sequence;
the find_jobs prompt moreover carries the explicit instruction DO NOT CREATE
new Job Listings.  The get_industry_trends prompt carries no instruction
forbidding invented records, which the counterexample exhibits. -/
theorem C1_synthesis_once_every_record (env : RemoteEnv) (jt loc : String) (ey : Nat)
    (sk : List String) (cat : String) (resp : FirecrawlResponse)
    (hok : env.extractResult = RemoteOutcome.ok resp) :
    (App.normalizedJobs resp ≠ [] →
      ∃ p, (App.find_jobs env jt loc ey sk).agentPrompts = [p] ∧
        (∀ r ∈ App.normalizedJobs resp, containsSub p (pyReprRecord r) = true) ∧
        containsSub p doNotInstr = true) ∧
    (resp.success = true → dictGet resp.data "industry_trends" ≠ [] →
      ∃ p, (App.get_industry_trends env cat).agentPrompts = [p] ∧
        ∀ r ∈ dictGet resp.data "industry_trends", containsSub p (pyReprRecord r) = true) := by
  constructor
  · intro hne
    refine ⟨findJobsSynthPrompt jt loc ey (joinComma sk)
      (pyReprRecords (App.normalizedJobs resp)), ?_, ?_, ?_⟩
    · cases hag : env.agentResult with
      | ok c => rw [app_find_jobs_eq_ok env jt loc ey sk resp c hok hne hag]
      | raise e => rw [app_find_jobs_eq_agent_raise env jt loc ey sk resp e hok hne hag]
    · intro r hr
      exact findPrompt_contains_record jt loc ey (joinComma sk) _ r hr
    · exact findPrompt_contains_doNot jt loc ey (joinComma sk) _
  · intro hs hne
    refine ⟨trendsSynthPrompt cat (pyReprRecords (dictGet resp.data "industry_trends")),
      ?_, ?_⟩
    · cases hag : env.agentResult with
      | ok c => rw [app_trends_eq_ok env cat resp c hok hs hne hag]
      | raise e => rw [app_trends_eq_agent_raise env cat resp e hok hs hne hag]
    · intro r hr
      exact trendsPrompt_contains_record cat _ r hr

/-- C1 witness: concrete runs with one job record and one trend record. -/
theorem C1_synthesis_once_every_record_witness :
    (∃ p, (App.find_jobs envJobsOk "Data Scientist" "New York" 3
        ["Python", "SQL"]).agentPrompts = [p] ∧
      (∀ r ∈ App.normalizedJobs respJobsOk, containsSub p (pyReprRecord r) = true) ∧
      containsSub p doNotInstr = true) ∧
    (∃ p, (App.get_industry_trends envTrendsOk "Marketing").agentPrompts = [p] ∧
      ∀ r ∈ dictGet respTrendsOk.data "industry_trends",
        containsSub p (pyReprRecord r) = true) :=
  ⟨(C1_synthesis_once_every_record envJobsOk "Data Scientist" "New York" 3
      ["Python", "SQL"] "Marketing" respJobsOk rfl).1 (by decide),
   (C1_synthesis_once_every_record envTrendsOk "Data Scientist" "New York" 3
      ["Python", "SQL"] "Marketing" respTrendsOk rfl).2 rfl (by decide)⟩

/-- C1 counterexample: on a concrete run of get_industry_trends with one
record, the single outbound synthesis prompt contains no phrasing that forbids
inventing records - in particular none of the stems below occur in it. -/
theorem C1_trends_prompt_no_forbid_counterexample :
    (App.get_industry_trends envTrendsOk "Marketing").agentPrompts =
      [trendsSynthPrompt "Marketing" (pyReprRecords [recTrend])] ∧
    containsSub (trendsSynthPrompt "Marketing" (pyReprRecords [recTrend])) "DO NOT" = false ∧
    containsSub (trendsSynthPrompt "Marketing" (pyReprRecords [recTrend])) "Do not" = false ∧
    containsSub (trendsSynthPrompt "Marketing" (pyReprRecords [recTrend])) "do not" = false ∧
    containsSub (trendsSynthPrompt "Marketing" (pyReprRecords [recTrend])) "invent" = false ∧
    containsSub (trendsSynthPrompt "Marketing" (pyReprRecords [recTrend])) "Invent" = false ∧
    containsSub (trendsSynthPrompt "Marketing" (pyReprRecords [recTrend])) "INVENT" = false ∧
    containsSub (trendsSynthPrompt "Marketing" (pyReprRecords [recTrend])) "creat" = false ∧
    containsSub (trendsSynthPrompt "Marketing" (pyReprRecords [recTrend])) "Creat" = false ∧
    containsSub (trendsSynthPrompt "Marketing" (pyReprRecords [recTrend])) "CREAT" = false ∧
    containsSub (trendsSynthPrompt "Marketing" (pyReprRecords [recTrend])) "fabricat" = false ∧
    containsSub (trendsSynthPrompt "Marketing" (pyReprRecords [recTrend])) "Fabricat" = false ∧
    containsSub (trendsSynthPrompt "Marketing" (pyReprRecords [recTrend])) "FABRICAT" = false ∧
    containsSub (trendsSynthPrompt "Marketing" (pyReprRecords [recTrend])) doNotInstr = false := by
  refine ⟨?_, by decide, by decide, by decide, by decide, by decide, by decide,
    by decide, by decide, by decide, by decide, by decide, by decide, by decide⟩
  rw [app_trends_eq_ok envTrendsOk "Marketing" respTrendsOk "REPORT" rfl rfl (by decide) rfl]
  rfl

theorem findJobsErrMsg_contains_error (e : String) :
    containsSub (findJobsErrMsg e) "error" = true := by
  unfold findJobsErrMsg
  exact containsSub_append_left _ _ _ (by decide)

theorem findJobsErrMsg_contains_exc (e : String) :
    containsSub (findJobsErrMsg e) e = true := by
  unfold findJobsErrMsg
  exact containsSub_append_right _ _ _ (containsSub_append_left _ _ _ (containsSub_self e))

theorem trendsErrMsg_contains_error (e : String) :
    containsSub (trendsErrMsg e) "error" = true := by
  unfold trendsErrMsg
  exact containsSub_append_left _ _ _ (by decide)

theorem trendsErrMsg_contains_exc (e : String) :
    containsSub (trendsErrMsg e) e = true := by
  unfold trendsErrMsg
  exact containsSub_append_right _ _ _ (containsSub_append_left _ _ _ (containsSub_self e))

/-- C3 (amended): a transport exception raised by the extraction call does not
degrade to an empty record set: it propagates to the orchestrator handler of
find_jobs, which returns the error string embedding the exception description
and never reaches normalization or synthesis; only a failure-tagged response
(success false) degrades to the empty record set and the no-results message. -/
theorem C3_transport_error_is_error_outcome (env : RemoteEnv) (jt loc : String)
    (ey : Nat) (sk : List String) (e : String) :
    (env.extractResult = RemoteOutcome.raise e →
      (App.find_jobs env jt loc ey sk).output = findJobsErrMsg e ∧
      (App.find_jobs env jt loc ey sk).agentPrompts = []) ∧
    (∀ resp, env.extractResult = RemoteOutcome.ok resp → resp.success = false →
      App.normalizedJobs resp = [] ∧
      (App.find_jobs env jt loc ey sk).output = noJobsMsg ∧
      (App.find_jobs env jt loc ey sk).agentPrompts = []) := by
  constructor
  · intro h
    rw [app_find_jobs_eq_raise env jt loc ey sk e h]
    exact ⟨rfl, rfl⟩
  · intro resp hok hf
    have hn : App.normalizedJobs resp = [] := by simp [App.normalizedJobs, hf]
    rw [app_find_jobs_eq_empty env jt loc ey sk resp hok hn]
    exact ⟨hn, rfl, rfl⟩

/-- C3 witness: concrete transport failure and concrete failure-tagged run. -/
theorem C3_transport_error_is_error_outcome_witness :
    ((App.find_jobs envRaise "Data Scientist" "New York" 3 ["Python"]).output =
        findJobsErrMsg "Connection timed out" ∧
      (App.find_jobs envRaise "Data Scientist" "New York" 3 ["Python"]).agentPrompts = []) ∧
    (App.normalizedJobs respFail = [] ∧
      (App.find_jobs envFail "Data Scientist" "New York" 3 ["Python"]).output = noJobsMsg ∧
      (App.find_jobs envFail "Data Scientist" "New York" 3 ["Python"]).agentPrompts = []) :=
  ⟨(C3_transport_error_is_error_outcome envRaise "Data Scientist" "New York" 3 ["Python"]
      "Connection timed out").1 rfl,
   (C3_transport_error_is_error_outcome envFail "Data Scientist" "New York" 3 ["Python"]
      "Connection timed out").2 respFail rfl rfl⟩

/-- C3 counterexample: with the extraction call raising a concrete transport
exception, find_jobs returns the except-branch error string, which differs
from the empty-record-set outcome the claim requires. -/
theorem C3_counterexample :
    (App.find_jobs envRaise "Data Scientist" "New York" 3 ["Python"]).output =
      findJobsErrMsg "Connection timed out" ∧
    findJobsErrMsg "Connection timed out" ≠ noJobsMsg := by
  constructor
  · rw [app_find_jobs_eq_raise envRaise "Data Scientist" "New York" 3 ["Python"]
      "Connection timed out" rfl]
  · decide

/-- C4: find_jobs and get_industry_trends never raise; any exception raised by
the extraction call or the synthesis call is caught and converted into a
returned string containing "error" and the exception description. -/
theorem C4_remote_exceptions_become_error_strings (env : RemoteEnv) (jt loc : String)
    (ey : Nat) (sk : List String) (cat e : String) :
    (env.extractResult = RemoteOutcome.raise e →
      (containsSub (App.find_jobs env jt loc ey sk).output "error" = true ∧
        containsSub (App.find_jobs env jt loc ey sk).output e = true) ∧
      (containsSub (App.get_industry_trends env cat).output "error" = true ∧
        containsSub (App.get_industry_trends env cat).output e = true)) ∧
    (∀ resp, env.extractResult = RemoteOutcome.ok resp →
      env.agentResult = RemoteOutcome.raise e →
      (App.normalizedJobs resp ≠ [] →
        containsSub (App.find_jobs env jt loc ey sk).output "error" = true ∧
        containsSub (App.find_jobs env jt loc ey sk).output e = true) ∧
      (resp.success = true → dictGet resp.data "industry_trends" ≠ [] →
        containsSub (App.get_industry_trends env cat).output "error" = true ∧
        containsSub (App.get_industry_trends env cat).output e = true)) := by
  constructor
  · intro h
    rw [app_find_jobs_eq_raise env jt loc ey sk e h, app_trends_eq_raise env cat e h]
    exact ⟨⟨findJobsErrMsg_contains_error e, findJobsErrMsg_contains_exc e⟩,
      ⟨trendsErrMsg_contains_error e, trendsErrMsg_contains_exc e⟩⟩
  · intro resp hok hag
    constructor
    · intro hne
      rw [app_find_jobs_eq_agent_raise env jt loc ey sk resp e hok hne hag]
      exact ⟨findJobsErrMsg_contains_error e, findJobsErrMsg_contains_exc e⟩
    · intro hs hne
      rw [app_trends_eq_agent_raise env cat resp e hok hs hne hag]
      exact ⟨trendsErrMsg_contains_error e, trendsErrMsg_contains_exc e⟩

/-- C4 witness: concrete extraction failures and synthesis failures in both
pipelines. -/
theorem C4_remote_exceptions_become_error_strings_witness :
    (containsSub (App.find_jobs envRaise "Data Scientist" "New York" 3
        ["Python"]).output "error" = true ∧
      containsSub (App.find_jobs envRaise "Data Scientist" "New York" 3
        ["Python"]).output "Connection timed out" = true) ∧
    (containsSub (App.get_industry_trends envRaise "Marketing").output "error" = true ∧
      containsSub (App.get_industry_trends envRaise "Marketing").output
        "Connection timed out" = true) ∧
    (containsSub (App.find_jobs envAgentRaise "Data Scientist" "New York" 3
        ["Python"]).output "error" = true ∧
      containsSub (App.find_jobs envAgentRaise "Data Scientist" "New York" 3
        ["Python"]).output "rate limit" = true) ∧
    (containsSub (App.get_industry_trends envTrendsAgentRaise "Marketing").output
        "error" = true ∧
      containsSub (App.get_industry_trends envTrendsAgentRaise "Marketing").output
        "rate limit" = true) :=
  ⟨((C4_remote_exceptions_become_error_strings envRaise "Data Scientist" "New York" 3
      ["Python"] "Marketing" "Connection timed out").1 rfl).1,
   ((C4_remote_exceptions_become_error_strings envRaise "Data Scientist" "New York" 3
      ["Python"] "Marketing" "Connection timed out").1 rfl).2,
   ((C4_remote_exceptions_become_error_strings envAgentRaise "Data Scientist" "New York" 3
      ["Python"] "Marketing" "rate limit").2 respJobsOk rfl rfl).1 (by decide),
   ((C4_remote_exceptions_become_error_strings envTrendsAgentRaise "Data Scientist"
      "New York" 3 ["Python"] "Marketing" "rate limit").2 respTrendsOk rfl rfl).2
      rfl (by decide)⟩

/-- C5 (amended): whenever the validated record sequence is empty, the
synthesis client is never invoked; find_jobs then returns the fixed no-jobs
message, while get_industry_trends returns one of two job_category-dependent
no-trends messages: one for a failure-tagged extraction, another for a
successful extraction whose industry_trends list is missing or empty. -/
theorem C5_empty_records_no_synthesis (env : RemoteEnv) (jt loc : String) (ey : Nat)
    (sk : List String) (cat : String) (resp : FirecrawlResponse)
    (hok : env.extractResult = RemoteOutcome.ok resp) :
    (App.normalizedJobs resp = [] →
      (App.find_jobs env jt loc ey sk).output = noJobsMsg ∧
      (App.find_jobs env jt loc ey sk).agentPrompts = []) ∧
    (resp.success = false →
      (App.get_industry_trends env cat).output = noTrendsFailMsg cat ∧
      (App.get_industry_trends env cat).agentPrompts = []) ∧
    (resp.success = true → dictGet resp.data "industry_trends" = [] →
      (App.get_industry_trends env cat).output = noTrendsEmptyMsg cat ∧
      (App.get_industry_trends env cat).agentPrompts = []) := by
  refine ⟨?_, ?_, ?_⟩
  · intro he
    rw [app_find_jobs_eq_empty env jt loc ey sk resp hok he]
    exact ⟨rfl, rfl⟩
  · intro hf
    rw [app_trends_eq_fail env cat resp hok hf]
    exact ⟨rfl, rfl⟩
  · intro hs he
    rw [app_trends_eq_empty env cat resp hok hs he]
    exact ⟨rfl, rfl⟩

/-- C5 witness: a success response with an empty payload, and a failure-tagged
response. -/
theorem C5_empty_records_no_synthesis_witness :
    ((App.find_jobs envEmptyOk "Data Scientist" "New York" 3 ["Python"]).output =
        noJobsMsg ∧
      (App.find_jobs envEmptyOk "Data Scientist" "New York" 3 ["Python"]).agentPrompts = []) ∧
    ((App.get_industry_trends envFail "Marketing").output = noTrendsFailMsg "Marketing" ∧
      (App.get_industry_trends envFail "Marketing").agentPrompts = []) ∧
    ((App.get_industry_trends envEmptyOk "Marketing").output = noTrendsEmptyMsg "Marketing" ∧
      (App.get_industry_trends envEmptyOk "Marketing").agentPrompts = []) :=
  ⟨(C5_empty_records_no_synthesis envEmptyOk "Data Scientist" "New York" 3 ["Python"]
      "Marketing" respEmpty rfl).1 (by decide),
   (C5_empty_records_no_synthesis envFail "Data Scientist" "New York" 3 ["Python"]
      "Marketing" respFail rfl).2.1 rfl,
   (C5_empty_records_no_synthesis envEmptyOk "Data Scientist" "New York" 3 ["Python"]
      "Marketing" respEmpty rfl).2.2 rfl (by decide)⟩

/-- C5 counterexample: the no-trends outcome is not a fixed message: it embeds
the caller's job_category, and the failure-tagged case and the empty-list case
produce two different strings. -/
theorem C5_counterexample :
    (App.get_industry_trends envEmptyOk "Marketing").output ≠
      (App.get_industry_trends envEmptyOk "Finance").output ∧
    (App.get_industry_trends envFail "Marketing").output ≠
      (App.get_industry_trends envEmptyOk "Marketing").output := by
  constructor
  · rw [app_trends_eq_empty envEmptyOk "Marketing" respEmpty rfl rfl (by decide),
        app_trends_eq_empty envEmptyOk "Finance" respEmpty rfl rfl (by decide)]
    decide
  · rw [app_trends_eq_fail envFail "Marketing" respFail rfl rfl,
        app_trends_eq_empty envEmptyOk "Marketing" respEmpty rfl rfl (by decide)]
    decide

/-- C6: a failure-tagged extraction result normalizes to the empty record
sequence regardless of its payload contents, in app.py (success field false)
and in job-hunt.py (dict whose success entry is falsy). -/
theorem C6_failed_extraction_normalizes_empty (resp : FirecrawlResponse)
    (d : List (String × List RawRecord)) (hf : resp.success = false) :
    App.normalizedJobs resp = [] ∧
    JobHunt.normalizedJobs (JobHunt.ExtractValue.dictResp false d) = [] := by
  constructor
  · simp [App.normalizedJobs, hf]
  · rfl

/-- C6 witness: the failure-tagged response that still carries records in its
payload normalizes to the empty sequence. -/
theorem C6_failed_extraction_normalizes_empty_witness :
    App.normalizedJobs respFail = [] ∧
    JobHunt.normalizedJobs (JobHunt.ExtractValue.dictResp false respFail.data) = [] :=
  C6_failed_extraction_normalizes_empty respFail respFail.data rfl

/-- C7 (amended): for all criteria with non-empty job_title and location, the
query builder produces exactly 3 job-search URLs, each containing the
lower-cased hyphen-joined job_title and location, and exactly 2 trend URLs;
the second trend URL contains the lower-cased hyphen-joined category, but the
first contains only the hyphen-joined category with its original case. -/
theorem C7_query_builder_urls (jt loc cat : String) (h1 : jt ≠ "") (h2 : loc ≠ "") :
    (find_jobs_urls jt loc).length = 3 ∧
    (∀ u ∈ find_jobs_urls jt loc,
      containsSub u (hyphenateLower jt) = true ∧
      containsSub u (hyphenateLower loc) = true) ∧
    (industry_trend_urls cat).length = 2 ∧
    (∃ u1 u2, industry_trend_urls cat = [u1, u2] ∧
      containsSub u1 (pyReplaceSpaceDash cat) = true ∧
      containsSub u2 (hyphenateLower cat) = true) := by
  refine ⟨rfl, ?_, rfl, ?_⟩
  · intro u hu
    simp only [find_jobs_urls, List.mem_cons, List.not_mem_nil, or_false] at hu
    rcases hu with rfl | rfl | rfl
    · exact ⟨containsSub_append_right _ _ _
          (containsSub_append_left _ _ _ (containsSub_self _)),
        containsSub_append_right _ _ _ (containsSub_append_right _ _ _
          (containsSub_append_right _ _ _ (containsSub_self _)))⟩
    · exact ⟨containsSub_append_right _ _ _
          (containsSub_append_left _ _ _ (containsSub_self _)),
        containsSub_append_right _ _ _ (containsSub_append_right _ _ _
          (containsSub_append_right _ _ _ (containsSub_self _)))⟩
    · exact ⟨containsSub_append_right _ _ _
          (containsSub_append_left _ _ _ (containsSub_self _)),
        containsSub_append_right _ _ _ (containsSub_append_right _ _ _
          (containsSub_append_right _ _ _ (containsSub_self _)))⟩
  · refine ⟨_, _, rfl, ?_, ?_⟩
    · exact containsSub_append_right _ _ _
        (containsSub_append_left _ _ _ (containsSub_self _))
    · exact containsSub_append_right _ _ _
        (containsSub_append_left _ _ _ (containsSub_self _))

/-- C7 witness: the concrete criteria of spec Scenario A. -/
theorem C7_query_builder_urls_witness :
    "Data Scientist" ≠ "" ∧ "New York" ≠ "" ∧
    ((find_jobs_urls "Data Scientist" "New York").length = 3 ∧
      (∀ u ∈ find_jobs_urls "Data Scientist" "New York",
        containsSub u (hyphenateLower "Data Scientist") = true ∧
        containsSub u (hyphenateLower "New York") = true) ∧
      (industry_trend_urls "Marketing").length = 2 ∧
      (∃ u1 u2, industry_trend_urls "Marketing" = [u1, u2] ∧
        containsSub u1 (pyReplaceSpaceDash "Marketing") = true ∧
        containsSub u2 (hyphenateLower "Marketing") = true)) :=
  ⟨by decide, by decide,
    C7_query_builder_urls "Data Scientist" "New York" "Marketing"
      (by decide) (by decide)⟩

/-- C7 counterexample: for the category Marketing, the first trend URL does
not contain the lower-cased hyphen-joined form of the category. -/
theorem C7_counterexample :
    (industry_trend_urls "Marketing").getD 0 "" =
      "https://www.payscale.com/research/US/Job=Marketing/Salary" ∧
    containsSub ((industry_trend_urls "Marketing").getD 0 "")
      (hyphenateLower "Marketing") = false := by
  exact ⟨by decide, by decide⟩

/-- C2 (amended): the pipeline performs no per-record schema validation: the
normalized sequence is exactly the list found under the expected top-level key
of a success-flagged payload, passed through unmodified, and every such
mapping - schema-shaped or not - is embedded into the synthesis prompt. -/
theorem C2_no_record_validation (env : RemoteEnv) (jt loc : String) (ey : Nat)
    (sk : List String) (cat : String) (resp : FirecrawlResponse)
    (hok : env.extractResult = RemoteOutcome.ok resp) (hs : resp.success = true) :
    App.normalizedJobs resp = dictGet resp.data "job_postings" ∧
    (∀ r ∈ dictGet resp.data "job_postings",
      ∃ p, (App.find_jobs env jt loc ey sk).agentPrompts = [p] ∧
        containsSub p (pyReprRecord r) = true) ∧
    (∀ r ∈ dictGet resp.data "industry_trends",
      ∃ p, (App.get_industry_trends env cat).agentPrompts = [p] ∧
        containsSub p (pyReprRecord r) = true) := by
  have hnorm : App.normalizedJobs resp = dictGet resp.data "job_postings" := by
    simp [App.normalizedJobs, hs]
  refine ⟨hnorm, ?_, ?_⟩
  · intro r hr
    have hmem : r ∈ App.normalizedJobs resp := by rw [hnorm]; exact hr
    have hne : App.normalizedJobs resp ≠ [] := List.ne_nil_of_mem hmem
    cases hag : env.agentResult with
    | ok c =>
      rw [app_find_jobs_eq_ok env jt loc ey sk resp c hok hne hag]
      exact ⟨_, rfl, findPrompt_contains_record jt loc ey (joinComma sk) _ r hmem⟩
    | raise e =>
      rw [app_find_jobs_eq_agent_raise env jt loc ey sk resp e hok hne hag]
      exact ⟨_, rfl, findPrompt_contains_record jt loc ey (joinComma sk) _ r hmem⟩
  · intro r hr
    have hne : dictGet resp.data "industry_trends" ≠ [] := List.ne_nil_of_mem hr
    cases hag : env.agentResult with
    | ok c =>
      rw [app_trends_eq_ok env cat resp c hok hs hne hag]
      exact ⟨_, rfl, trendsPrompt_contains_record cat _ r hr⟩
    | raise e =>
      rw [app_trends_eq_agent_raise env cat resp e hok hs hne hag]
      exact ⟨_, rfl, trendsPrompt_contains_record cat _ r hr⟩

/-- C2 witness: a concrete success run with a job record and a trend record. -/
theorem C2_no_record_validation_witness :
    App.normalizedJobs respBoth = dictGet respBoth.data "job_postings" ∧
    (∀ r ∈ dictGet respBoth.data "job_postings",
      ∃ p, (App.find_jobs envBoth "Data Scientist" "New York" 3
        ["Python"]).agentPrompts = [p] ∧
        containsSub p (pyReprRecord r) = true) ∧
    (∀ r ∈ dictGet respBoth.data "industry_trends",
      ∃ p, (App.get_industry_trends envBoth "Marketing").agentPrompts = [p] ∧
        containsSub p (pyReprRecord r) = true) :=
  C2_no_record_validation envBoth "Data Scientist" "New York" 3 ["Python"]
    "Marketing" respBoth rfl rfl

/-- C2 counterexample: a mapping that fails the JobPosting schema-shape check
is nonetheless passed into the synthesis prompt verbatim. -/
theorem C2_unvalidated_mapping_counterexample :
    jobPostingShaped recBogus = false ∧
    (App.find_jobs envBogus "Data Scientist" "New York" 3 ["Python"]).agentPrompts =
      [findJobsSynthPrompt "Data Scientist" "New York" 3 (joinComma ["Python"])
        (pyReprRecords [recBogus])] ∧
    containsSub (findJobsSynthPrompt "Data Scientist" "New York" 3 (joinComma ["Python"])
      (pyReprRecords [recBogus])) (pyReprRecord recBogus) = true := by
  refine ⟨by decide, ?_, ?_⟩
  · rw [app_find_jobs_eq_ok envBogus "Data Scientist" "New York" 3 ["Python"] respBogus
      "REPORT" rfl (by decide) rfl]
    rfl
  · exact findPrompt_contains_record _ _ _ _ [recBogus] recBogus (by decide)

/-- C8 (amended): normalization accepts partial records without rejection:
every mapping under the expected key stays in the normalized sequence
unchanged (in app.py and in job-hunt.py) and is embedded verbatim in the
synthesis prompt; no unset sentinel is inserted for missing fields. -/
theorem C8_partial_records_pass_through (env : RemoteEnv) (jt loc : String) (ey : Nat)
    (sk : List String) (resp : FirecrawlResponse) (r : RawRecord)
    (hok : env.extractResult = RemoteOutcome.ok resp) (hs : resp.success = true)
    (hr : r ∈ dictGet resp.data "job_postings") :
    r ∈ App.normalizedJobs resp ∧
    (∀ d, r ∈ dictGet d "job_postings" →
      r ∈ JobHunt.normalizedJobs (JobHunt.ExtractValue.dictResp true d)) ∧
    (∃ p, (App.find_jobs env jt loc ey sk).agentPrompts = [p] ∧
      containsSub p (pyReprRecord r) = true) := by
  have hnorm : App.normalizedJobs resp = dictGet resp.data "job_postings" := by
    simp [App.normalizedJobs, hs]
  have hmem : r ∈ App.normalizedJobs resp := by rw [hnorm]; exact hr
  refine ⟨hmem, ?_, ?_⟩
  · intro d hd
    simpa [JobHunt.normalizedJobs] using hd
  · have hne : App.normalizedJobs resp ≠ [] := List.ne_nil_of_mem hmem
    cases hag : env.agentResult with
    | ok c =>
      rw [app_find_jobs_eq_ok env jt loc ey sk resp c hok hne hag]
      exact ⟨_, rfl, findPrompt_contains_record jt loc ey (joinComma sk) _ r hmem⟩
    | raise e =>
      rw [app_find_jobs_eq_agent_raise env jt loc ey sk resp e hok hne hag]
      exact ⟨_, rfl, findPrompt_contains_record jt loc ey (joinComma sk) _ r hmem⟩

/-- C8 witness: the record missing four of its five fields is accepted and
embedded. -/
theorem C8_partial_records_pass_through_witness :
    recPartial ∈ App.normalizedJobs respPartial ∧
    (∀ d, recPartial ∈ dictGet d "job_postings" →
      recPartial ∈ JobHunt.normalizedJobs (JobHunt.ExtractValue.dictResp true d)) ∧
    (∃ p, (App.find_jobs envPartial "Data Scientist" "New York" 3
      ["Python"]).agentPrompts = [p] ∧
      containsSub p (pyReprRecord recPartial) = true) :=
  C8_partial_records_pass_through envPartial "Data Scientist" "New York" 3 ["Python"]
    respPartial recPartial rfl rfl (by decide)

/-- C8 counterexample: the partial record is accepted, but its missing fields
are not filled with any sentinel: the normalized record still lacks four of
the five fields, and its prompt embedding is the repr of the original
one-field mapping, with no unset marker. -/
theorem C8_no_sentinel_counterexample :
    App.normalizedJobs respPartial = [recPartial] ∧
    hasAllJobFields recPartial = false ∧
    pyReprRecord recPartial = "\x7b\x27job_title\x27: \x27x\x27\x7d" ∧
    containsSub (pyReprRecord recPartial) "None" = false ∧
    containsSub (pyReprRecord recPartial) "unset" = false ∧
    (App.find_jobs envPartial "Data Scientist" "New York" 3 ["Python"]).agentPrompts =
      [findJobsSynthPrompt "Data Scientist" "New York" 3 (joinComma ["Python"])
        (pyReprRecords [recPartial])] := by
  refine ⟨by decide, by decide, by decide, by decide, by decide, ?_⟩
  rw [app_find_jobs_eq_ok envPartial "Data Scientist" "New York" 3 ["Python"] respPartial
    "REPORT" rfl (by decide) rfl]
  rfl

theorem noTrendsFailMsg_data (cat : String) :
    (noTrendsFailMsg cat).data =
      "No industry trend data available for ".data ++
        (cat.data ++ ".Try different industry category.".data) := by
  simp [noTrendsFailMsg, String.data_append]

theorem noTrendsEmptyMsg_data (cat : String) :
    (noTrendsEmptyMsg cat).data =
      "No industry trends data available for ".data ++
        (cat.data ++ ".Try a different industry category.".data) := by
  simp [noTrendsEmptyMsg, String.data_append]

theorem noTrends_msgs_ne (cat : String) : noTrendsFailMsg cat ≠ noTrendsEmptyMsg cat := by
  intro h
  have hd := congrArg String.data h
  rw [noTrendsFailMsg_data, noTrendsEmptyMsg_data] at hd
  have hp : listIsPrefixOf "No industry trend data available for ".data
      ("No industry trends data available for ".data ++
        (cat.data ++ ".Try a different industry category.".data)) = true := by
    rw [← hd]
    exact listIsPrefixOf_self_append _ _
  rcases listIsPrefixOf_append_cases _ _ _ hp with h1 | ⟨v, hv, hvp⟩
  · revert h1
    decide
  · have h2 : listIsPrefixOf "No industry trends data available for ".data
        "No industry trend data available for ".data = true := by
      rw [hv]
      exact listIsPrefixOf_self_append _ _
    revert h2
    decide

theorem string_of_data_eq {a b : String} (h : a.data = b.data) : a = b :=
  congrArg String.mk h

theorem noTrendsFailMsg_inj (cat cat2 : String)
    (h : noTrendsFailMsg cat = noTrendsFailMsg cat2) : cat = cat2 := by
  have hd := congrArg String.data h
  rw [noTrendsFailMsg_data, noTrendsFailMsg_data] at hd
  have h2 := List.append_cancel_left hd
  have h3 := List.append_cancel_right h2
  exact string_of_data_eq h3

theorem noTrendsEmptyMsg_inj (cat cat2 : String)
    (h : noTrendsEmptyMsg cat = noTrendsEmptyMsg cat2) : cat = cat2 := by
  have hd := congrArg String.data h
  rw [noTrendsEmptyMsg_data, noTrendsEmptyMsg_data] at hd
  have h2 := List.append_cancel_left hd
  have h3 := List.append_cancel_right h2
  exact string_of_data_eq h3

/-- C10: the fallback for a failure-tagged extraction differs from the
fallback for a successful extraction with a missing or empty industry_trends
list, both embed the caller-supplied job_category, and each determines the
category uniquely, so neither is a fixed string and the two empty-outcome
causes are distinguishable. -/
theorem C10_trend_fallbacks_distinct (env1 env2 : RemoteEnv) (cat cat2 : String)
    (resp1 resp2 : FirecrawlResponse)
    (hok1 : env1.extractResult = RemoteOutcome.ok resp1) (hf : resp1.success = false)
    (hok2 : env2.extractResult = RemoteOutcome.ok resp2) (hs : resp2.success = true)
    (he : dictGet resp2.data "industry_trends" = []) :
    (App.get_industry_trends env1 cat).output ≠
      (App.get_industry_trends env2 cat).output ∧
    containsSub (App.get_industry_trends env1 cat).output cat = true ∧
    containsSub (App.get_industry_trends env2 cat).output cat = true ∧
    (cat ≠ cat2 →
      (App.get_industry_trends env1 cat).output ≠
        (App.get_industry_trends env1 cat2).output ∧
      (App.get_industry_trends env2 cat).output ≠
        (App.get_industry_trends env2 cat2).output) := by
  rw [app_trends_eq_fail env1 cat resp1 hok1 hf,
      app_trends_eq_empty env2 cat resp2 hok2 hs he,
      app_trends_eq_fail env1 cat2 resp1 hok1 hf,
      app_trends_eq_empty env2 cat2 resp2 hok2 hs he]
  refine ⟨noTrends_msgs_ne cat, ?_, ?_, ?_⟩
  · unfold noTrendsFailMsg
    exact containsSub_append_right _ _ _ (containsSub_append_left _ _ _ (containsSub_self cat))
  · unfold noTrendsEmptyMsg
    exact containsSub_append_right _ _ _ (containsSub_append_left _ _ _ (containsSub_self cat))
  · intro hne
    exact ⟨fun h => hne (noTrendsFailMsg_inj cat cat2 h),
           fun h => hne (noTrendsEmptyMsg_inj cat cat2 h)⟩

/-- C10 witness: failure-tagged versus empty-payload runs for two concrete
categories. -/
theorem C10_trend_fallbacks_distinct_witness :
    (App.get_industry_trends envFail "Marketing").output ≠
      (App.get_industry_trends envEmptyOk "Marketing").output ∧
    containsSub (App.get_industry_trends envFail "Marketing").output "Marketing" = true ∧
    containsSub (App.get_industry_trends envEmptyOk "Marketing").output "Marketing" = true ∧
    ("Marketing" ≠ "Finance" →
      (App.get_industry_trends envFail "Marketing").output ≠
        (App.get_industry_trends envFail "Finance").output ∧
      (App.get_industry_trends envEmptyOk "Marketing").output ≠
        (App.get_industry_trends envEmptyOk "Finance").output) :=
  C10_trend_fallbacks_distinct envFail envEmptyOk "Marketing" "Finance"
    respFail respEmpty rfl rfl rfl rfl (by decide)

theorem listIsSuffixOfB_of_eq_append (t u x : List Char) (h : x = t ++ u) :
    listIsSuffixOfB u x = true := by
  unfold listIsSuffixOfB
  rw [h, List.reverse_append]
  exact listIsPrefixOf_self_append _ _

theorem wrapped_no_pat (pre post e : String) (pat : List Char)
    (hpre : listHasSub pat pre.data = false)
    (hpost : listHasSub pat post.data = false)
    (hA : ∀ k, k < pat.length + 1 → 0 < k →
      listIsSuffixOfB (pat.take k) pre.data = false)
    (hB : ∀ k, k < pat.length → listIsPrefixOf (pat.drop k) post.data = false)
    (he : listHasSub pat e.data = false) :
    listHasSub pat (pre ++ (e ++ post)).data = false := by
  have hdata : (pre ++ (e ++ post)).data = pre.data ++ (e.data ++ post.data) := by
    simp [String.data_append]
  rw [hdata]
  cases hval : listHasSub pat (pre.data ++ (e.data ++ post.data)) with
  | false => rfl
  | true =>
    exfalso
    rcases listHasSub_append_cases pat pre.data (e.data ++ post.data) hval with h1 | h1 | h1
    · simp [hpre] at h1
    · rcases listHasSub_append_cases pat e.data post.data h1 with h2 | h2 | h2
      · simp [he] at h2
      · simp [hpost] at h2
      · obtain ⟨u, v, huv, hune, hvne, ⟨t, ht⟩, hvp⟩ := h2
        have hv : v = pat.drop u.length := by
          rw [huv]
          exact (List.drop_left u v).symm
        have hlt : u.length < pat.length := by
          have hvpos : 0 < v.length := List.length_pos.mpr hvne
          rw [huv, List.length_append]
          omega
        have hb := hB u.length hlt
        rw [← hv] at hb
        simp [hb] at hvp
    · obtain ⟨u, v, huv, hune, hvne, ⟨t, ht⟩, hvp⟩ := h1
      have hu : u = pat.take u.length := by
        rw [huv]
        exact (List.take_left u v).symm
      have hle : u.length < pat.length + 1 := by
        rw [huv, List.length_append]
        omega
      have hpos : 0 < u.length := List.length_pos.mpr hune
      have ha := hA u.length hle hpos
      rw [← hu] at ha
      have hsfx : listIsSuffixOfB u pre.data = true :=
        listIsSuffixOfB_of_eq_append t u pre.data ht
      simp [ha] at hsfx

theorem findJobsErrMsg_startsWith (e : String) :
    strStartsWith (findJobsErrMsg e) "An error occured" = true := by
  unfold findJobsErrMsg
  exact strStartsWith_append _ _ _ (by decide)

theorem trendsErrMsg_startsWith (e : String) :
    strStartsWith (trendsErrMsg e) "An error occurerd" = true := by
  unfold trendsErrMsg
  exact strStartsWith_append _ _ _ (by decide)

theorem findJobsErrMsg_no_detect (e : String)
    (he : containsSub e "An error occurred" = false) :
    containsSub (findJobsErrMsg e) "An error occurred" = false := by
  unfold findJobsErrMsg containsSub
  exact wrapped_no_pat _ _ e _ (by decide) (by decide) (by decide) (by decide) he

theorem trendsErrMsg_no_detect (e : String)
    (he : containsSub e "An error occurred" = false) :
    containsSub (trendsErrMsg e) "An error occurred" = false := by
  unfold trendsErrMsg containsSub
  exact wrapped_no_pat _ _ e _ (by decide) (by decide) (by decide) (by decide) he

/-- C9 (amended): in job-hunt.py, every exception from extraction or from
synthesis makes find_jobs return a string starting with the misspelled An
error occured, and get_industry_trends one starting with An error occurerd;
whenever the exception description itself is free of the correctly spelled
phrase An error occurred, the returned string is too, so main's error-display
branch is never triggered by the methods' own template text - only an
exception description (or synthesis output) containing the phrase can trigger
it, which the counterexample exhibits. -/
theorem C9_misspelled_error_prefixes (env : JobHunt.JHEnv) (jt loc : String) (ey : Nat)
    (sk : List String) (cat e : String)
    (he : containsSub e "An error occurred" = false) :
    (env.extractResult = RemoteOutcome.raise e →
      strStartsWith (JobHunt.find_jobs env jt loc ey sk).output "An error occured" = true ∧
      JobHunt.errorDisplayTriggered (JobHunt.find_jobs env jt loc ey sk).output = false ∧
      strStartsWith (JobHunt.get_industry_trends env cat).output "An error occurerd" = true ∧
      JobHunt.errorDisplayTriggered (JobHunt.get_industry_trends env cat).output = false) ∧
    (∀ v, env.extractResult = RemoteOutcome.ok v →
      env.agentResult = RemoteOutcome.raise e →
      JobHunt.normalizedJobs v ≠ [] →
      strStartsWith (JobHunt.find_jobs env jt loc ey sk).output "An error occured" = true ∧
      JobHunt.errorDisplayTriggered (JobHunt.find_jobs env jt loc ey sk).output = false) ∧
    (∀ d, env.extractResult = RemoteOutcome.ok (JobHunt.ExtractValue.dictResp true d) →
      env.agentResult = RemoteOutcome.raise e →
      dictGet d "industry_trends" ≠ [] →
      strStartsWith (JobHunt.get_industry_trends env cat).output "An error occurerd" = true ∧
      JobHunt.errorDisplayTriggered (JobHunt.get_industry_trends env cat).output = false) := by
  refine ⟨?_, ?_, ?_⟩
  · intro h
    rw [jh_find_jobs_eq_raise env jt loc ey sk e h, jh_trends_eq_raise env cat e h]
    exact ⟨findJobsErrMsg_startsWith e, findJobsErrMsg_no_detect e he,
      trendsErrMsg_startsWith e, trendsErrMsg_no_detect e he⟩
  · intro v hok hag hne
    rw [jh_find_jobs_eq_agent_raise env jt loc ey sk v e hok hne hag]
    exact ⟨findJobsErrMsg_startsWith e, findJobsErrMsg_no_detect e he⟩
  · intro d hok hag hne
    rw [jh_trends_eq_agent_raise env cat d e hok hne hag]
    exact ⟨trendsErrMsg_startsWith e, trendsErrMsg_no_detect e he⟩

/-- C9 witness: concrete extraction and synthesis failures in job-hunt.py. -/
theorem C9_misspelled_error_prefixes_witness :
    (strStartsWith (JobHunt.find_jobs jhEnvRaise "Data Scientist" "New York" 3
        ["Python"]).output "An error occured" = true ∧
      JobHunt.errorDisplayTriggered (JobHunt.find_jobs jhEnvRaise "Data Scientist"
        "New York" 3 ["Python"]).output = false ∧
      strStartsWith (JobHunt.get_industry_trends jhEnvRaise "Marketing").output
        "An error occurerd" = true ∧
      JobHunt.errorDisplayTriggered (JobHunt.get_industry_trends jhEnvRaise
        "Marketing").output = false) ∧
    (strStartsWith (JobHunt.find_jobs jhEnvAgentRaise "Data Scientist" "New York" 3
        ["Python"]).output "An error occured" = true ∧
      JobHunt.errorDisplayTriggered (JobHunt.find_jobs jhEnvAgentRaise "Data Scientist"
        "New York" 3 ["Python"]).output = false) ∧
    (strStartsWith (JobHunt.get_industry_trends jhEnvAgentRaise "Marketing").output
        "An error occurerd" = true ∧
      JobHunt.errorDisplayTriggered (JobHunt.get_industry_trends jhEnvAgentRaise
        "Marketing").output = false) :=
  ⟨(C9_misspelled_error_prefixes jhEnvRaise "Data Scientist" "New York" 3 ["Python"]
      "Marketing" "Connection timed out" (by decide)).1 rfl,
   (C9_misspelled_error_prefixes jhEnvAgentRaise "Data Scientist" "New York" 3 ["Python"]
      "Marketing" "rate limit" (by decide)).2.1
      (JobHunt.ExtractValue.dictResp true jhDataBoth) rfl rfl (by decide),
   (C9_misspelled_error_prefixes jhEnvAgentRaise "Data Scientist" "New York" 3 ["Python"]
      "Marketing" "rate limit" (by decide)).2.2 jhDataBoth rfl rfl (by decide)⟩

/-- C9 counterexample: when the exception description itself contains An error
occurred, the returned string does contain it and main's error branch does
trigger, so the returned strings do not never contain the detection phrase. -/
theorem C9_detect_reachable_counterexample :
    (JobHunt.find_jobs jhEnvRaiseTricky "Data Scientist" "New York" 3 ["Python"]).output =
      findJobsErrMsg "An error occurred" ∧
    JobHunt.errorDisplayTriggered (findJobsErrMsg "An error occurred") = true := by
  constructor
  · rw [jh_find_jobs_eq_raise jhEnvRaiseTricky "Data Scientist" "New York" 3 ["Python"]
      "An error occurred" rfl]
  · decide
